import Mathlib

/-!
Verification of the hotel-amenities translation system.

The development shallowly embeds the two core JavaScript modules:
the upgraded translator class (batch translation, retranslation
feedback loop) and the enhanced translation validator (per-language
quality scoring).  External effects — the OpenAI completion client,
the random sample shuffle — are modelled as oracle parameters; all
other logic is translated directly from the source.  JavaScript
numbers that carry scores are modelled as rationals, JavaScript
objects used as string maps as association lists, and `undefined`
as `Option`.
-/

namespace Translations

/-- JavaScript object property assignment on a string-keyed map:
replaces the value when the key is present, otherwise appends. -/
def setKey (m : List (String × String)) (k v : String) : List (String × String) :=
  match m with
  | [] => [(k, v)]
  | (k0, v0) :: rest => if k0 = k then (k, v) :: rest else (k0, v0) :: setKey rest k v

/-- An amenity record.  `nameAll` models the optional `nameAll` object
holding per-language translations; `direct` models language codes stored
as direct properties of the record (the CSV-style fallback shape). -/
structure Amenity where
  id : Option String
  name : Option String
  en : Option String
  nameAll : Option (List (String × String))
  direct : List (String × String)
deriving DecidableEq, Inhabited

/-- The source phrase of a record: `amenity.name || amenity.en`
(a record missing both is modelled as the empty string). -/
def nameOrEn (a : Amenity) : String :=
  match a.name with
  | some s => if s = "" then (a.en.getD "") else s
  | none => a.en.getD ""

/-- The translation the code reads for a language:
`amenity.nameAll && amenity.nameAll[lang] ? amenity.nameAll[lang] : amenity[lang]`,
as an optional value (`none` models `undefined`). -/
def currentTranslationOpt (a : Amenity) (lang : String) : Option String :=
  match a.nameAll with
  | some m =>
    match m.lookup lang with
    | some s => if s = "" then a.direct.lookup lang else some s
    | none => a.direct.lookup lang
  | none => a.direct.lookup lang

/-- Same read used where the code expects a string result. -/
def currentTranslationStr (a : Amenity) (lang : String) : String :=
  (currentTranslationOpt a lang).getD ""

/-- `amenity.nameAll`, initialising the object when absent, then
assigning `nameAll[lang] = t`. -/
def setNameAll (a : Amenity) (lang t : String) : Amenity :=
  { a with nameAll := some (setKey (a.nameAll.getD []) lang t) }

/-! ### JavaScript string primitives

`trim`, `split('\n')`, `toLowerCase` and `toUpperCase` are modelled on
the character list of the string (structural recursion, so every
concrete computation reduces inside the kernel). -/

/-- JavaScript `s.trim()`. -/
def jsTrim (s : String) : String :=
  String.mk (((s.data.dropWhile Char.isWhitespace).reverse.dropWhile Char.isWhitespace).reverse)

/-- The splitting loop of `s.split('\n')`. -/
def splitNlAux : List Char → List Char → List String
  | [], acc => [String.mk acc.reverse]
  | c :: rest, acc =>
    if c = '\n' then String.mk acc.reverse :: splitNlAux rest []
    else splitNlAux rest (c :: acc)

/-- JavaScript `s.split('\n')`. -/
def splitNl (s : String) : List String :=
  splitNlAux s.data []

/-- JavaScript `s.toLowerCase()`. -/
def jsToLower (s : String) : String :=
  String.mk (s.data.map Char.toLower)

/-- JavaScript `s.toUpperCase()`. -/
def jsToUpper (s : String) : String :=
  String.mk (s.data.map Char.toUpper)

/-! ### Response parser (`parseTranslationResponse`) -/

/-- `aiResponse.split('\n').filter(line => line.trim())`. -/
def nonBlankLines (aiResponse : String) : List String :=
  (splitNl aiResponse).filter (fun l => jsTrim l ≠ "")

/-- Remove one layer of surrounding double quotes when present
(`startsWith('"') && endsWith('"')`, then `slice(1, -1)`). -/
def stripQuotes (s : String) : String :=
  if s.data.head? = some '"' ∧ s.data.getLast? = some '"' then (s.drop 1).dropRight 1 else s

/-- Semantics of `\s*(.+?)` anchored to the end, applied after the
numbered marker of `/^\d+\.\s*(.+)$/` on a line (which contains no
`'\n'`): the dot does not match a carriage return, so the capture,
once trimmed, is the trimmed tail when the tail holds a character the
dot can match after its whitespace prefix, and no match otherwise. -/
def matchNumTail (s : List Char) : Option (List Char) :=
  if s.isEmpty then none
  else
    let m := (s.takeWhile Char.isWhitespace).length
    let t := s.drop m
    if t.isEmpty then
      match s.getLast? with
      | some c => if c = '\r' then none else some [c]
      | none => none
    else
      if t.contains '\r' then none else some t

/-- The regex `/^\d+\.\s*(.+)$/` applied to one line; returns the
captured group already trimmed, as the source trims it immediately. -/
def matchNumbered (line : String) : Option String :=
  let cs := line.data
  let ds := cs.takeWhile Char.isDigit
  if ds.isEmpty then none
  else
    match cs.drop ds.length with
    | '.' :: rest => (matchNumTail rest).map (fun t => jsTrim (String.mk t))
    | _ => none

/-- The failure placeholder for the k-th expected translation. -/
def missingPlaceholder (k : Nat) : String :=
  "[MISSING TRANSLATION " ++ toString k ++ "]"

/-- `parseTranslationResponse(aiResponse, expectedCount)`: for each of
the first `expectedCount` non-blank lines, strip the numbered marker
when the line matches it, otherwise fall back to the trimmed line or,
when blank or absent, to a missing placeholder; finally strip one
layer of surrounding quotes. -/
def parseTranslationResponse (aiResponse : String) (expectedCount : Nat) : List String :=
  let lines := nonBlankLines aiResponse
  (List.range expectedCount).map (fun i =>
    let line := lines.getD i ""
    match matchNumbered line with
    | some t => stripQuotes t
    | none =>
      let fb := jsTrim line
      let fb := if fb = "" then missingPlaceholder (i + 1) else fb
      stripQuotes fb)

/-! ### Exact rational arithmetic in kernel-computable form

JavaScript number arithmetic on scores is modelled as exact rational
arithmetic.  The operations are written through `mkRat` so that every
concrete score computation evaluates inside the kernel; the lemmas
`qadd_eq`, `qsum_eq` and `qdivNat_eq` identify them with the standard
rational operations. -/

/-- Rational addition. -/
def qadd (a b : ℚ) : ℚ :=
  mkRat (a.num * b.den + b.num * a.den) (a.den * b.den)

/-- The running sum `total += x` over a list, starting from `0`. -/
def qsum (l : List ℚ) : ℚ :=
  l.foldl qadd 0

/-- Division of a rational by a natural count (a denominator of `0`
yields `0`, as division by zero does on `ℚ`). -/
def qdivNat (a : ℚ) (n : Nat) : ℚ :=
  mkRat a.num (a.den * n)

/-- The rational value of a parsed natural number. -/
def qofNat (n : Nat) : ℚ :=
  mkRat (Int.ofNat n) 1

/-! ### Enhanced translation validator (`validate_translations.js`) -/

namespace Validator

def VALIDATION_MODEL : String := "openai/gpt-3.5-turbo"

def DEFAULT_SAMPLE_SIZE : Nat := 5

/-- `9.0`. -/
def EXCELLENT_THRESHOLD : ℚ := 9

/-- `7.5`. -/
def GOOD_THRESHOLD : ℚ := mkRat 15 2

/-- `6.0`. -/
def ACCEPTABLE_THRESHOLD : ℚ := 6

/-- The validator's `LANGUAGE_NAMES` table. -/
def LANGUAGE_NAMES : List (String × String) :=
  [("ar", "Arabic"), ("de", "German"), ("es", "Spanish"),
   ("es419", "Latin American Spanish"), ("fr", "French"), ("it", "Italian"),
   ("ja", "Japanese"), ("ko", "Korean"), ("nl", "Dutch"), ("pl", "Polish"),
   ("pt", "Portuguese"), ("ptBr", "Brazilian Portuguese"), ("ru", "Russian"),
   ("sv", "Swedish"), ("th", "Thai"), ("vi", "Vietnamese"),
   ("zhCn", "Simplified Chinese"), ("zhHk", "Traditional Chinese"),
   ("gu", "Gujarati"), ("hi", "Hindi"), ("kn", "Kannada"), ("ml", "Malayalam"),
   ("mr", "Marathi"), ("or", "Odia"), ("pa", "Punjabi"), ("ta", "Tamil"),
   ("te", "Telugu"), ("bn", "Bengali"), ("fa", "Persian"), ("ms", "Malay"),
   ("zhTw", "Taiwan Traditional Chinese")]

/-- JavaScript `String.prototype.includes` on character lists. -/
def includesAux (p : List Char) : List Char → Bool
  | [] => p.isEmpty
  | c :: rest => p.isPrefixOf (c :: rest) || includesAux p rest

/-- `s.includes(pat)`. -/
def strIncludes (s pat : String) : Bool :=
  includesAux pat.data s.data

/-- `extractScoreFromAssessment(assessment)`: the fixed keyword ladder
over the lowercased assessment text. -/
def extractScoreFromAssessment (assessment : String) : ℚ :=
  let lower := jsToLower assessment
  if strIncludes lower "excellent" || strIncludes lower "perfect" then mkRat 19 2
  else if strIncludes lower "very good" || strIncludes lower "good" then 8
  else if strIncludes lower "acceptable" || strIncludes lower "adequate" then mkRat 13 2
  else if strIncludes lower "poor" || strIncludes lower "bad" then 3
  else if strIncludes lower "failed" || strIncludes lower "error" then 0
  else 5

/-- `determineQualityLevel(score)`. -/
def determineQualityLevel (score : ℚ) : String :=
  if EXCELLENT_THRESHOLD ≤ score then "EXCELLENT"
  else if GOOD_THRESHOLD ≤ score then "GOOD"
  else if ACCEPTABLE_THRESHOLD ≤ score then "ACCEPTABLE"
  else "NEEDS_IMPROVEMENT"

/-- `createEnhancedValidationPrompt(englishText, translatedText, languageCode)`.
Looking up an unknown language code yields `undefined`, and the template
immediately dereferences `languageName.toUpperCase()`, so the builder
throws (modelled as `Except.error`) before any try/catch is entered. -/
def createEnhancedValidationPrompt (englishText translatedText languageCode : String) :
    Except String String :=
  match LANGUAGE_NAMES.lookup languageCode with
  | none => .error "TypeError: cannot read toUpperCase of undefined"
  | some languageName =>
    .ok ("You are a professional translation validator specializing in hotel and hospitality terminology.\n\n"
      ++ "Please validate the following translation for a hotel booking website:\n\n"
      ++ "ORIGINAL ENGLISH: \"" ++ englishText ++ "\"\n"
      ++ "TRANSLATED " ++ jsToUpper languageName ++ ": \"" ++ translatedText ++ "\"\n\n"
      ++ "VALIDATION CRITERIA:\n"
      ++ "1. Accuracy (30%): Does the translation convey the same meaning as the original?\n"
      ++ "2. Cultural Appropriateness (25%): Is the translation suitable for hotel amenities and culturally appropriate?\n"
      ++ "3. Natural Flow (25%): Does the translation sound natural and native in the target language?\n"
      ++ "4. Technical Correctness (20%): Are grammar, spelling, and terminology correct?\n\n"
      ++ "Please provide your assessment in this exact format:\n"
      ++ "Score: [1-10] (where 10 is perfect)\n"
      ++ "Accuracy: [brief assessment]\n"
      ++ "Cultural: [brief assessment]\n"
      ++ "Natural: [brief assessment]\n"
      ++ "Technical: [brief assessment]\n"
      ++ "Issues: [list any specific issues found, or \"None\" if perfect]\n"
      ++ "Recommendation: [specific improvement suggestion, or \"Excellent\" if perfect]\n\n"
      ++ "Guidelines:\n"
      ++ "- Score 9-10: Excellent translation, minor issues at most\n"
      ++ "- Score 7-8: Good translation with some room for improvement\n"
      ++ "- Score 5-6: Acceptable but needs improvement\n"
      ++ "- Score 1-4: Poor translation with significant issues")

/-- The digits captured by `(\d+)`, read as a number (`parseInt`). -/
def digitsToNat (ds : List Char) : Nat :=
  ds.foldl (fun n c => n * 10 + (c.toNat - '0'.toNat)) 0

/-- The regex fragment `\s*(\d+)` applied at one position: a greedy
whitespace run must be followed by a digit; the capture is the digit run. -/
def scoreAt (cs : List Char) : Option Nat :=
  let rest := cs.drop ((cs.takeWhile Char.isWhitespace).length)
  match rest with
  | c :: _ => if c.isDigit then some (digitsToNat (rest.takeWhile Char.isDigit)) else none
  | [] => none

/-- Search for the first position where `/Score:\s*(\d+)/` matches. -/
def searchScore : List Char → Option Nat
  | [] => none
  | c :: rest =>
    if ("Score:".data).isPrefixOf (c :: rest) then
      match scoreAt ((c :: rest).drop 6) with
      | some n => some n
      | none => searchScore rest
    else searchScore rest

/-- The regex fragment `\s*(.+?)(?=\n|$)` applied at one position of a
field regex such as `/Accuracy:\s*(.+?)(?=\n|$)/`: the greedy whitespace
run may cross newlines; the lazy capture stops before the next newline.
When only whitespace remains, backtracking leaves a single trailing
whitespace character as the capture, unless every candidate is a newline. -/
def fieldAt (cs : List Char) : Option (List Char) :=
  let m := (cs.takeWhile Char.isWhitespace).length
  if m < cs.length then some ((cs.drop m).takeWhile (fun c => c ≠ '\n'))
  else
    match (cs.filter (fun c => c ≠ '\n')).getLast? with
    | some c => some [c]
    | none => none

/-- Search for the first position where `label` followed by
`\s*(.+?)(?=\n|$)` matches; returns the raw capture. -/
def searchCapture (label : List Char) : List Char → Option (List Char)
  | [] => none
  | c :: rest =>
    if label.isPrefixOf (c :: rest) then
      match fieldAt ((c :: rest).drop label.length) with
      | some cap => some cap
      | none => searchCapture label rest
    else searchCapture label rest

/-- One labeled field of the validation response: the trimmed capture,
or the default text when the label regex finds no match. -/
def fieldOrDefault (label dflt aiResponse : String) : String :=
  match searchCapture label.data aiResponse.data with
  | some cap => jsTrim (String.mk cap)
  | none => dflt

/-- The value produced by `parseEnhancedValidationResponse`. -/
structure ParsedValidation where
  score : ℚ
  accuracy : String
  cultural : String
  natural : String
  technical : String
  issues : String
  recommendation : String
deriving DecidableEq, Inhabited

/-- `parseEnhancedValidationResponse(aiResponse)`. -/
def parseEnhancedValidationResponse (aiResponse : String) : ParsedValidation :=
  { score := match searchScore aiResponse.data with | some n => qofNat n | none => 0
    accuracy := fieldOrDefault "Accuracy:" "No accuracy assessment" aiResponse
    cultural := fieldOrDefault "Cultural:" "No cultural assessment" aiResponse
    natural := fieldOrDefault "Natural:" "No natural flow assessment" aiResponse
    technical := fieldOrDefault "Technical:" "No technical assessment" aiResponse
    issues := fieldOrDefault "Issues:" "No issues listed" aiResponse
    recommendation := fieldOrDefault "Recommendation:" "No recommendation provided" aiResponse }

/-- The per-translation result object of `validateSingleTranslation`. -/
structure ValidationOutcome where
  score : ℚ
  accuracy : String
  cultural : String
  natural : String
  technical : String
  issues : String
  recommendation : String
  rawResponse : String
deriving DecidableEq, Inhabited

/-- `validateSingleTranslation(englishText, translatedText, languageCode)`.
The completion client is an oracle: `.ok` is the model response text and
`.error` a failed call whose message reaches the catch branch.  The
prompt is built before the try/catch, so an unknown language code makes
the whole call throw (`Except.error`); otherwise the function never
throws and always returns a fully populated result object. -/
def validateSingleTranslation (client : String → Except String String)
    (englishText translatedText languageCode : String) :
    Except String ValidationOutcome :=
  match createEnhancedValidationPrompt englishText translatedText languageCode with
  | .error e => .error e
  | .ok validationPrompt =>
    match client validationPrompt with
    | .ok aiResponse =>
      let p := parseEnhancedValidationResponse aiResponse
      .ok { score := p.score, accuracy := p.accuracy, cultural := p.cultural,
            natural := p.natural, technical := p.technical, issues := p.issues,
            recommendation := p.recommendation, rawResponse := aiResponse }
    | .error msg =>
      .ok { score := 0, accuracy := "Validation failed", cultural := "Validation failed",
            natural := "Validation failed", technical := "Validation failed",
            issues := msg, recommendation := "Check API configuration", rawResponse := "" }

/-- The validator's translated-record filter: a present, non-blank
translation, with no exclusion of any failure sentinel. -/
def hasTranslationVal (a : Amenity) (lang : String) : Bool :=
  match a.nameAll with
  | some m =>
    match m.lookup lang with
    | some s => if s = "" then fallbackVal a lang else jsTrim s ≠ ""
    | none => fallbackVal a lang
  | none => fallbackVal a lang
where
  /-- `amenity[languageCode] && amenity[languageCode].trim() !== ''`. -/
  fallbackVal (a : Amenity) (lang : String) : Bool :=
    match a.direct.lookup lang with
    | some s => s ≠ "" && jsTrim s ≠ ""
    | none => false

/-- One entry of a language report's `validationResults`. -/
structure ValidationRecord where
  id : Option String
  englishText : String
  translatedText : String
  score : ℚ
  accuracy : String
  cultural : String
  natural : String
  technical : String
  issues : String
  recommendation : String
deriving DecidableEq, Inhabited

structure QualityBreakdown where
  accuracy : ℚ
  cultural : ℚ
  natural : ℚ
  technical : ℚ
deriving DecidableEq, Inhabited

/-- The per-language quality report returned by `validateLanguage`. -/
structure LanguageResult where
  languageCode : String
  languageName : String
  sampleSize : Nat
  totalTranslations : Nat
  averageScore : ℚ
  qualityLevel : String
  validationResults : List ValidationRecord
  qualityBreakdown : QualityBreakdown
deriving DecidableEq, Inhabited

/-- The zero-score report returned when no translations exist. -/
def emptyLanguageResult (lang langName : String) : LanguageResult :=
  { languageCode := lang, languageName := langName, sampleSize := 0,
    totalTranslations := 0, averageScore := 0, qualityLevel := "NO_TRANSLATIONS",
    validationResults := [],
    qualityBreakdown := { accuracy := 0, cultural := 0, natural := 0, technical := 0 } }

/-- The sequential validation loop over the sampled records; the `i`-th
sample uses the `i`-th completion-client behaviour.  A throw from
`validateSingleTranslation` aborts and propagates. -/
def sampleLoop (client : Nat → String → Except String String) (lang : String) :
    Nat → List Amenity → Except String (List ValidationOutcome)
  | _, [] => .ok []
  | i, a :: rest =>
    match validateSingleTranslation (client i) (nameOrEn a) (currentTranslationStr a lang) lang with
    | .error e => .error e
    | .ok v =>
      match sampleLoop client lang (i + 1) rest with
      | .error e => .error e
      | .ok vs => .ok (v :: vs)

/-- `validateLanguage(amenities, languageCode, languageName, sampleSize)`.
The random shuffle `translatedAmenities.sort(() => 0.5 - Math.random())`
is an oracle rearrangement of the filtered list; the completion client is
an oracle per sampled record. -/
def validateLanguage (client : Nat → String → Except String String)
    (shuffle : List Amenity → List Amenity)
    (amenities : List Amenity) (lang langName : String) (sampleSize : Nat) :
    Except String LanguageResult :=
  let translatedAmenities := amenities.filter (fun a => hasTranslationVal a lang)
  if translatedAmenities.isEmpty then .ok (emptyLanguageResult lang langName)
  else
    let shuffledData := shuffle translatedAmenities
    let sampleData := shuffledData.take (min sampleSize translatedAmenities.length)
    match sampleLoop client lang 0 sampleData with
    | .error e => .error e
    | .ok outcomes =>
      let n := sampleData.length
      let totalScore := qsum (outcomes.map (fun v => v.score))
      let averageScore := qdivNat totalScore n
      .ok { languageCode := lang, languageName := langName,
            sampleSize := sampleData.length,
            totalTranslations := translatedAmenities.length,
            averageScore := averageScore,
            qualityLevel := determineQualityLevel averageScore,
            validationResults := (sampleData.zip outcomes).map (fun p =>
              { id := p.1.id, englishText := nameOrEn p.1,
                translatedText := currentTranslationStr p.1 lang,
                score := p.2.score, accuracy := p.2.accuracy,
                cultural := p.2.cultural, natural := p.2.natural,
                technical := p.2.technical, issues := p.2.issues,
                recommendation := p.2.recommendation }),
            qualityBreakdown :=
              { accuracy := qdivNat (qsum (outcomes.map (fun v => extractScoreFromAssessment v.accuracy))) n,
                cultural := qdivNat (qsum (outcomes.map (fun v => extractScoreFromAssessment v.cultural))) n,
                natural := qdivNat (qsum (outcomes.map (fun v => extractScoreFromAssessment v.natural))) n,
                technical := qdivNat (qsum (outcomes.map (fun v => extractScoreFromAssessment v.technical))) n } }

end Validator

/-! ### Upgraded translator (batch translation and the retranslation loop) -/

namespace Translator

def TRANSLATION_MODEL : String := "openai/gpt-3.5-turbo"

def BATCH_SIZE : Nat := 200

/-- `8.5`. -/
def QUALITY_THRESHOLD : ℚ := mkRat 17 2

/-- The numbered enumeration `1. phrase` used by both prompt builders. -/
def numberedList (phrases : List String) : String :=
  String.intercalate "\n" (phrases.mapIdx (fun i p => toString (i + 1) ++ ". " ++ p))

/-- `createEnhancedTranslationPrompt(englishPhrases, targetLanguageCode, languageName)`. -/
def createEnhancedTranslationPrompt (englishPhrases : List String)
    (_targetLanguageCode languageName : String) : String :=
  "Translate these hotel amenities to " ++ languageName
    ++ ". Use natural, professional tone for hotel guests.\n\n"
    ++ numberedList englishPhrases
    ++ "\n\nFormat: 1. [translation] 2. [translation] etc. (without quotes)"

/-- `createRetranslationPrompt(...)`; the `qualityIssues` argument is
accepted but, as in the source, never used in the template. -/
def createRetranslationPrompt (englishPhrases currentTranslations : List String)
    (_qualityIssues : List String) (_targetLanguageCode languageName : String) : String :=
  "Improve these " ++ languageName
    ++ " translations. Previous quality was low. Make them natural and professional.\n\n"
    ++ "ORIGINAL: " ++ numberedList englishPhrases ++ "\n"
    ++ "CURRENT: " ++ numberedList currentTranslations
    ++ "\n\nProvide improved translations: 1. [translation] 2. [translation] etc. (without quotes)"

/-- `translateBatch(englishPhrases, targetLanguageCode, languageName)`.
The completion client is an oracle from the prompt and the attempt
number (1-based) to a response, `none` being a thrown call.  Three
attempts are made; exhaustion yields one failure sentinel per phrase. -/
def translateBatch (client : String → Nat → Option String)
    (englishPhrases : List String) (targetLanguageCode languageName : String) : List String :=
  let translationPrompt := createEnhancedTranslationPrompt englishPhrases targetLanguageCode languageName
  match client translationPrompt 1 with
  | some aiResponse => parseTranslationResponse aiResponse englishPhrases.length
  | none =>
    match client translationPrompt 2 with
    | some aiResponse => parseTranslationResponse aiResponse englishPhrases.length
    | none =>
      match client translationPrompt 3 with
      | some aiResponse => parseTranslationResponse aiResponse englishPhrases.length
      | none => englishPhrases.map (fun _ => "[TRANSLATION_ERROR]")

/-- `retranslateBatch(...)`: same retry discipline, but retry exhaustion
returns the current translations unchanged. -/
def retranslateBatch (client : String → Nat → Option String)
    (englishPhrases currentTranslations : List String) (qualityIssues : List String)
    (targetLanguageCode languageName : String) : List String :=
  let retranslationPrompt :=
    createRetranslationPrompt englishPhrases currentTranslations qualityIssues
      targetLanguageCode languageName
  match client retranslationPrompt 1 with
  | some aiResponse => parseTranslationResponse aiResponse englishPhrases.length
  | none =>
    match client retranslationPrompt 2 with
    | some aiResponse => parseTranslationResponse aiResponse englishPhrases.length
    | none =>
      match client retranslationPrompt 3 with
      | some aiResponse => parseTranslationResponse aiResponse englishPhrases.length
      | none => currentTranslations

/-- The missing-translation test of `findMissingTranslations`. -/
def isMissing (a : Amenity) (lang : String) : Bool :=
  match a.nameAll with
  | some m =>
    match m.lookup lang with
    | some s => if s = "" then fallbackMissing a lang else jsTrim s = ""
    | none => fallbackMissing a lang
  | none => fallbackMissing a lang
where
  /-- `!amenity[languageCode] || amenity[languageCode].trim() === ''`. -/
  fallbackMissing (a : Amenity) (lang : String) : Bool :=
    match a.direct.lookup lang with
    | some s => s = "" || jsTrim s = ""
    | none => true

/-- `findMissingTranslations(amenities, languageCode)`. -/
def findMissingTranslations (amenities : List Amenity) (lang : String) : List Amenity :=
  amenities.filter (fun a => isMissing a lang)

/-- The batching loop, structurally recursive on a fuel argument that
starts at the list length (enough fuel for any positive batch size). -/
def chunksOfAux {α : Type} (n : Nat) : Nat → List α → List (List α)
  | _, [] => []
  | 0, _ :: _ => []
  | fuel + 1, a :: rest => ((a :: rest).take n) :: chunksOfAux n fuel ((a :: rest).drop n)

/-- Partition into consecutive batches of at most `n` items
(the `for (let i = 0; i < len; i += BATCH_SIZE)` slicing). -/
def chunksOf {α : Type} (n : Nat) (l : List α) : List (List α) :=
  chunksOfAux n l.length l

/-- The write-back loop: walks the record list in order; each record
selected as missing consumes the next parsed translation and receives
it in `nameAll[lang]` unless the translation is falsy or equals the
(misspelled, hence never produced) check sentinel `'[TRANSLATION ERROR]'`.
Returns the updated records and `translatedCount`. -/
def writeBack (lang : String) : List Amenity → List String → List Amenity × Nat
  | [], _ => ([], 0)
  | a :: rest, ts =>
    if isMissing a lang then
      match ts with
      | [] =>
        let r := writeBack lang rest []
        (a :: r.1, r.2)
      | t :: ts2 =>
        if t ≠ "" ∧ t ≠ "[TRANSLATION ERROR]" then
          let r := writeBack lang rest ts2
          (setNameAll a lang t :: r.1, r.2 + 1)
        else
          let r := writeBack lang rest ts2
          (a :: r.1, r.2)
    else
      let r := writeBack lang rest ts
      (a :: r.1, r.2)

/-- The per-language result object of `translateLanguage`. -/
structure TransLangResult where
  languageCode : String
  languageName : String
  translatedCount : Nat
  totalCount : Nat
  status : String
  batchResults : List (Nat × Nat)
deriving DecidableEq, Inhabited

/-- `translateLanguage(amenities, languageCode, languageName)`.  The
completion client is an oracle from the batch index, the prompt and the
attempt number to a response.  Returns the result object and the record
set after the in-place updates. -/
def translateLanguage (client : Nat → String → Nat → Option String)
    (amenities : List Amenity) (lang langName : String) :
    TransLangResult × List Amenity :=
  let missingTranslations := findMissingTranslations amenities lang
  if missingTranslations.isEmpty then
    ({ languageCode := lang, languageName := langName, translatedCount := 0,
       totalCount := amenities.length, status := "already_complete", batchResults := [] },
     amenities)
  else
    let batches := chunksOf BATCH_SIZE missingTranslations
    let batchTranslations := batches.mapIdx (fun bi batch =>
      translateBatch (client bi) (batch.map nameOrEn) lang langName)
    let translations := batchTranslations.flatten
    let r := writeBack lang amenities translations
    ({ languageCode := lang, languageName := langName, translatedCount := r.2,
       totalCount := missingTranslations.length, status := "completed",
       batchResults := (batches.zip batchTranslations).map (fun p =>
         (p.1.length, (p.2.filter (fun t => t ≠ "" && t ≠ "[TRANSLATION ERROR]")).length)) },
     r.1)

/-- The retranslation controller's translated-record filter: present,
non-blank, and not the (never produced) sentinel `'[TRANSLATION_FAILED]'`. -/
def hasTranslationVR (a : Amenity) (lang : String) : Bool :=
  match a.nameAll with
  | some m =>
    match m.lookup lang with
    | some s => if s = "" then fallbackVR a lang else jsTrim s ≠ "" && s ≠ "[TRANSLATION_FAILED]"
    | none => fallbackVR a lang
  | none => fallbackVR a lang
where
  /-- `amenity[lang] && amenity[lang].trim() !== '' && amenity[lang] !== '[TRANSLATION_FAILED]'`. -/
  fallbackVR (a : Amenity) (lang : String) : Bool :=
    match a.direct.lookup lang with
    | some s => s ≠ "" && jsTrim s ≠ "" && s ≠ "[TRANSLATION_FAILED]"
    | none => false

/-- The `qualityIssues` collected from the first validation pass. -/
def qualityIssuesOf (v : Validator.LanguageResult) : List String :=
  ((v.validationResults.filter (fun r => r.score < QUALITY_THRESHOLD)).map
    (fun r => r.issues)).filter (fun issue => issue ≠ "None" ∧ issue ≠ "No issues listed")

/-- The overwrite loop of the retranslation branch: every record passing
the translated filter receives `improvedTranslations[i]` in
`nameAll[lang]`, unconditionally; `i` counts filtered records.  The
improved list always has exactly one entry per filtered record. -/
def overwriteTranslated (lang : String) (improved : List String) :
    List Amenity → Nat → List Amenity
  | [], _ => []
  | a :: rest, i =>
    if hasTranslationVR a lang then
      setNameAll a lang (improved.getD i "") :: overwriteTranslated lang improved rest (i + 1)
    else
      a :: overwriteTranslated lang improved rest i

/-- The result object of `validateAndRetranslateLanguage`. -/
structure VRResult where
  languageCode : String
  languageName : String
  averageScore : ℚ
  needsRetranslation : Bool
  status : String
  originalScore : Option ℚ
  finalScore : Option ℚ
  validationResults : List Validator.ValidationRecord
deriving DecidableEq, Inhabited

/-- `validateAndRetranslateLanguage(amenities, languageCode, languageName)`.
The two calls into the separate validator component are oracles
(`vres1` for the first pass, `vres2` for the re-validation after
retranslating), and the completion client of `retranslateBatch` is an
oracle as well.  Returns the result object and the record set after any
in-place updates. -/
def validateAndRetranslateLanguage (vres1 : Validator.LanguageResult)
    (rclient : String → Nat → Option String) (vres2 : Validator.LanguageResult)
    (amenities : List Amenity) (lang langName : String) :
    VRResult × List Amenity :=
  let translatedAmenities := amenities.filter (fun a => hasTranslationVR a lang)
  if translatedAmenities.isEmpty then
    ({ languageCode := lang, languageName := langName, averageScore := 0,
       needsRetranslation := false, status := "no_translations",
       originalScore := none, finalScore := none, validationResults := [] },
     amenities)
  else
    let averageScore := vres1.averageScore
    let validationResults := vres1.validationResults
    if averageScore < QUALITY_THRESHOLD then
      let qualityIssues := qualityIssuesOf vres1
      let englishPhrases := translatedAmenities.map nameOrEn
      let currentTranslations := translatedAmenities.map (fun a => currentTranslationStr a lang)
      let improvedTranslations :=
        retranslateBatch rclient englishPhrases currentTranslations qualityIssues lang langName
      let amenities2 := overwriteTranslated lang improvedTranslations amenities 0
      let finalAverageScore := vres2.averageScore
      if QUALITY_THRESHOLD ≤ finalAverageScore then
        ({ languageCode := lang, languageName := langName,
           averageScore := finalAverageScore, needsRetranslation := false,
           status := "retranslated_success", originalScore := some averageScore,
           finalScore := some finalAverageScore, validationResults := validationResults },
         amenities2)
      else
        ({ languageCode := lang, languageName := langName,
           averageScore := finalAverageScore, needsRetranslation := false,
           status := "retranslation_failed_kept_original", originalScore := some averageScore,
           finalScore := some finalAverageScore, validationResults := validationResults },
         amenities2)
    else
      ({ languageCode := lang, languageName := langName, averageScore := averageScore,
         needsRetranslation := false, status := "quality_acceptable",
         originalScore := none, finalScore := none, validationResults := validationResults },
       amenities)

end Translator

/-! ### Helper lemmas -/

/-- Reading the translation stored for a language directly from the
record's `nameAll` map. -/
def nameAllLookup (a : Amenity) (lang : String) : Option String :=
  (a.nameAll.getD []).lookup lang

/-- A record holds a non-blank translation for a language. -/
def nonBlankTranslation (a : Amenity) (lang : String) : Bool :=
  match currentTranslationOpt a lang with
  | some s => jsTrim s ≠ ""
  | none => false

theorem qadd_eq (a b : ℚ) : qadd a b = a + b := by
  have ha : ((a.den : ℚ)) ≠ 0 := Nat.cast_ne_zero.mpr a.den_nz
  have hb : ((b.den : ℚ)) ≠ 0 := Nat.cast_ne_zero.mpr b.den_nz
  rw [qadd, Rat.mkRat_eq_div]
  push_cast
  conv_rhs => rw [← Rat.num_div_den a, ← Rat.num_div_den b]
  rw [div_add_div _ _ ha hb]
  ring_nf

theorem qsum_eq (l : List ℚ) : qsum l = l.sum := by
  suffices h : ∀ init : ℚ, l.foldl qadd init = init + l.sum by
    simpa [qsum] using h 0
  induction l with
  | nil => intro init; simp
  | cons x rest ih =>
    intro init
    simp only [List.foldl_cons, List.sum_cons, qadd_eq]
    rw [ih]
    ring

theorem qdivNat_eq (a : ℚ) (n : Nat) : qdivNat a n = a / (n : ℚ) := by
  rw [qdivNat, Rat.mkRat_eq_div]
  push_cast
  conv_rhs => rw [← Rat.num_div_den a]
  rw [div_div]

theorem qofNat_eq (n : Nat) : qofNat n = (n : ℚ) := by
  rw [qofNat, Rat.mkRat_eq_div]
  push_cast
  simp

theorem QUALITY_THRESHOLD_eq : Translator.QUALITY_THRESHOLD = 8.5 := by
  rw [Translator.QUALITY_THRESHOLD, Rat.mkRat_eq_div]
  norm_num

theorem GOOD_THRESHOLD_eq : Validator.GOOD_THRESHOLD = 7.5 := by
  rw [Validator.GOOD_THRESHOLD, Rat.mkRat_eq_div]
  norm_num

theorem mkRat_19_2_eq : mkRat 19 2 = (9.5 : ℚ) := by
  rw [Rat.mkRat_eq_div]
  norm_num

theorem mkRat_13_2_eq : mkRat 13 2 = (6.5 : ℚ) := by
  rw [Rat.mkRat_eq_div]
  norm_num

theorem mkRat_43_5_eq : mkRat 43 5 = (8.6 : ℚ) := by
  rw [Rat.mkRat_eq_div]
  norm_num

theorem mkRat_849_100_eq : mkRat 849 100 = (8.49 : ℚ) := by
  rw [Rat.mkRat_eq_div]
  norm_num

theorem mkRat_599_100_eq : mkRat 599 100 = (5.99 : ℚ) := by
  rw [Rat.mkRat_eq_div]
  norm_num

theorem lookup_setKey (m : List (String × String)) (k v : String) :
    (setKey m k v).lookup k = some v := by
  induction m with
  | nil => simp [setKey]
  | cons p rest ih =>
    rcases p with ⟨k0, v0⟩
    by_cases h : k0 = k
    · simp [setKey, h]
    · have hne : (k == k0) = false := by
        simp [Ne.symm h]
      simp [setKey, h, List.lookup, hne, ih]

theorem nameAllLookup_setNameAll (a : Amenity) (lang t : String) :
    nameAllLookup (setNameAll a lang t) lang = some t := by
  simp [nameAllLookup, setNameAll, lookup_setKey]

theorem isMissing_eq_not_nonBlank (a : Amenity) (lang : String) :
    Translator.isMissing a lang = !(nonBlankTranslation a lang) := by
  have he : jsTrim "" = "" := rfl
  unfold Translator.isMissing nonBlankTranslation currentTranslationOpt
    Translator.isMissing.fallbackMissing
  cases hna : a.nameAll with
  | none =>
    cases hd : a.direct.lookup lang with
    | none => simp [hd]
    | some s =>
      by_cases hs : s = ""
      · subst hs; simp [hd, he]
      · by_cases ht : jsTrim s = "" <;> simp [hd, hs, ht]
  | some m =>
    cases hm : m.lookup lang with
    | none =>
      cases hd : a.direct.lookup lang with
      | none => simp [hm, hd]
      | some s =>
        by_cases hs : s = ""
        · subst hs; simp [hm, hd, he]
        · by_cases ht : jsTrim s = "" <;> simp [hm, hd, hs, ht]
    | some s =>
      by_cases hs : s = ""
      · subst hs
        cases hd : a.direct.lookup lang with
        | none => simp [hm, hd]
        | some u =>
          by_cases hu : u = ""
          · subst hu; simp [hm, hd, he]
          · by_cases ht : jsTrim u = "" <;> simp [hm, hd, hu, ht]
      · by_cases ht : jsTrim s = "" <;> simp [hm, hs, ht]

theorem writeBack_length (lang : String) (as : List Amenity) :
    ∀ ts : List String, ((Translator.writeBack lang as ts).1).length = as.length := by
  induction as with
  | nil => intro ts; simp [Translator.writeBack]
  | cons a rest ih =>
    intro ts
    by_cases hm : Translator.isMissing a lang
    · cases ts with
      | nil => simp [Translator.writeBack, hm, ih]
      | cons t ts2 =>
        by_cases hg : t ≠ "" ∧ t ≠ "[TRANSLATION ERROR]"
        · simp [Translator.writeBack, hm, hg, ih]
        · simp [Translator.writeBack, hm, hg, ih]
    · simp [Translator.writeBack, hm, ih]

theorem writeBack_preserve (lang : String) (as : List Amenity) :
    ∀ (ts : List String) (i : Nat),
      Translator.isMissing (as.getD i default) lang = false →
      ((Translator.writeBack lang as ts).1).getD i default = as.getD i default := by
  induction as with
  | nil => intro ts i _; simp [Translator.writeBack]
  | cons a rest ih =>
    intro ts i h
    cases i with
    | zero =>
      simp only [List.getD_cons_zero] at h
      simp [Translator.writeBack, h]
    | succ n =>
      simp only [List.getD_cons_succ] at h ⊢
      by_cases hm : Translator.isMissing a lang
      · cases ts with
        | nil => simpa [Translator.writeBack, hm] using ih [] n h
        | cons t ts2 =>
          by_cases hg : t ≠ "" ∧ t ≠ "[TRANSLATION ERROR]"
          · simpa [Translator.writeBack, hm, hg] using ih ts2 n h
          · simpa [Translator.writeBack, hm, hg] using ih ts2 n h
      · simpa [Translator.writeBack, hm] using ih ts n h

theorem parseTranslationResponse_length (aiResponse : String) (expectedCount : Nat) :
    (parseTranslationResponse aiResponse expectedCount).length = expectedCount := by
  simp [parseTranslationResponse]

theorem retranslateBatch_length (client : String → Nat → Option String)
    (eng cur qi : List String) (lang langName : String) (h : cur.length = eng.length) :
    (Translator.retranslateBatch client eng cur qi lang langName).length = eng.length := by
  unfold Translator.retranslateBatch
  cases h1 : client (Translator.createRetranslationPrompt eng cur qi lang langName) 1 with
  | some r => simp [h1, parseTranslationResponse_length]
  | none =>
    cases h2 : client (Translator.createRetranslationPrompt eng cur qi lang langName) 2 with
    | some r => simp [h1, h2, parseTranslationResponse_length]
    | none =>
      cases h3 : client (Translator.createRetranslationPrompt eng cur qi lang langName) 3 with
      | some r => simp [h1, h2, h3, parseTranslationResponse_length]
      | none => simp [h1, h2, h3, h]

theorem zipMapSnd {α β γ : Type} (g : β → γ) :
    ∀ (l1 : List α) (l2 : List β), l1.length = l2.length →
      (l1.zip l2).map (fun p => g p.2) = l2.map g := by
  intro l1
  induction l1 with
  | nil => intro l2 h; cases l2 <;> simp_all
  | cons a rest ih =>
    intro l2 h
    cases l2 with
    | nil => simp at h
    | cons b rest2 =>
      simp only [List.length_cons, Nat.add_right_cancel_iff] at h
      simp [ih rest2 h]

theorem sampleLoop_length (client : Nat → String → Except String String) (lang : String) :
    ∀ (i : Nat) (sample : List Amenity) (vs : List Validator.ValidationOutcome),
      Validator.sampleLoop client lang i sample = .ok vs → vs.length = sample.length := by
  intro i sample
  induction sample generalizing i with
  | nil =>
    intro vs h
    unfold Validator.sampleLoop at h
    simp only [Except.ok.injEq] at h
    subst h
    rfl
  | cons a rest ih =>
    intro vs h
    unfold Validator.sampleLoop at h
    rcases h1 : Validator.validateSingleTranslation (client i) (nameOrEn a)
        (currentTranslationStr a lang) lang with e | v
    · simp [h1] at h
    · rw [h1] at h
      rcases h2 : Validator.sampleLoop client lang (i + 1) rest with e | vs2
      · simp [h2] at h
      · rw [h2] at h
        simp only [Except.ok.injEq] at h
        subst h
        simp [ih (i + 1) vs2 h2]

theorem overwriteTranslated_read (lang : String) (improved : List String) :
    ∀ (as : List Amenity) (i : Nat),
      i + (as.filter (fun a => Translator.hasTranslationVR a lang)).length ≤ improved.length →
      ((as.zip (Translator.overwriteTranslated lang improved as i)).filterMap
          (fun p => if Translator.hasTranslationVR p.1 lang then some p.2 else none)).map
        (fun a => nameAllLookup a lang)
      = ((improved.drop i).take
          ((as.filter (fun a => Translator.hasTranslationVR a lang)).length)).map some := by
  intro as
  induction as with
  | nil => intro i _; simp [Translator.overwriteTranslated]
  | cons a rest ih =>
    intro i h
    by_cases hp : Translator.hasTranslationVR a lang
    · have hlen : i < improved.length := by
        simp only [List.filter_cons, hp, List.length_cons, if_true] at h
        omega
      have hgetD : improved.getD i "" = improved.get ⟨i, hlen⟩ := by
        simp [List.getD, List.getElem?_eq_getElem hlen]
      have hdrop : improved.drop i = improved.get ⟨i, hlen⟩ :: improved.drop (i + 1) := by
        rw [List.drop_eq_getElem_cons hlen]
        simp
      have hrest := ih (i + 1)
        (by simp only [List.filter_cons, hp, List.length_cons, if_true] at h; omega)
      simp only [Translator.overwriteTranslated, hp, if_pos, List.zip_cons_cons,
        List.filterMap_cons, List.filter_cons, List.map_cons, List.length_cons]
      rw [hdrop]
      simp only [List.take_succ_cons, List.map_cons]
      refine congrArg₂ _ ?_ hrest
      rw [hgetD] at *
      exact nameAllLookup_setNameAll a lang _
    · have hrest := ih i (by simpa [List.filter_cons, hp] using h)
      simp only [Translator.overwriteTranslated, hp, List.zip_cons_cons,
        List.filterMap_cons, List.filter_cons]
      simpa [hp] using hrest

theorem mkRat_15_2_eq : mkRat 15 2 = (7.5 : ℚ) := by
  rw [Rat.mkRat_eq_div]
  norm_num

theorem stripQuotes_missingPlaceholder (k : Nat) :
    stripQuotes (missingPlaceholder k) = missingPlaceholder k := by
  have hh : (missingPlaceholder k).data.head? = some '[' := by
    have hx : "[MISSING TRANSLATION ".data = '[' :: "MISSING TRANSLATION ".data := rfl
    simp [missingPlaceholder, hx]
  have hne : ¬((missingPlaceholder k).data.head? = some '"'
      ∧ (missingPlaceholder k).data.getLast? = some '"') := by
    intro hc
    rw [hh] at hc
    simp at hc
  simp only [stripQuotes, if_neg hne]

/-! ### The claims -/

/-- The two-record batch of the retry-exhaustion scenario. -/
def c1Amenities : List Amenity :=
  [⟨some "1", some "Free WiFi", none, none, []⟩,
   ⟨some "2", some "Parking", none, none, []⟩]

/-- A completion client whose calls always fail. -/
def c1FailingClient : Nat → String → Nat → Option String := fun _ _ _ => none

/-- C1: the claim fails on the code.  When every attempt of the
completion client fails, `translateBatch` returns the sentinel
`'[TRANSLATION_ERROR]'` for each record, but the write-back guard in
`translateLanguage` compares against the differently spelled
`'[TRANSLATION ERROR]'`, so the sentinel passes the guard and is
written into each record's `translations[languageCode]`; both records
are counted as translated, the batch result counts them as successful,
and `findMissingTranslations` no longer selects them on a later run. -/
theorem retry_exhaustion_writes_sentinel_into_records :
    Translator.translateBatch (c1FailingClient 0) (c1Amenities.map nameOrEn) "es" "Spanish"
        = ["[TRANSLATION_ERROR]", "[TRANSLATION_ERROR]"]
    ∧ Translator.findMissingTranslations c1Amenities "es" = c1Amenities
    ∧ ((Translator.translateLanguage c1FailingClient c1Amenities "es" "Spanish").2.map
        (fun a => nameAllLookup a "es"))
        = [some "[TRANSLATION_ERROR]", some "[TRANSLATION_ERROR]"]
    ∧ Translator.findMissingTranslations
        (Translator.translateLanguage c1FailingClient c1Amenities "es" "Spanish").2 "es" = []
    ∧ (Translator.translateLanguage c1FailingClient c1Amenities "es" "Spanish").1.translatedCount = 2
    ∧ (Translator.translateLanguage c1FailingClient c1Amenities "es" "Spanish").1.batchResults
        = [(2, 2)] := by
  refine ⟨by decide, by decide, by decide, by decide, by decide, by decide⟩

/-- C6: `parseTranslationResponse` always returns exactly the expected
number of strings without throwing; positions beyond the non-blank
lines are filled with the indexed missing placeholder; the numbered
marker and one layer of surrounding quotes are stripped as in the
claim's examples, and the two placeholders of the degradation example
are distinct. -/
theorem parser_returns_exactly_expected_count :
    (∀ (aiResponse : String) (expectedCount : Nat),
        (parseTranslationResponse aiResponse expectedCount).length = expectedCount)
    ∧ (∀ (aiResponse : String) (expectedCount i : Nat),
        (nonBlankLines aiResponse).length ≤ i → i < expectedCount →
        (parseTranslationResponse aiResponse expectedCount).getD i ""
          = missingPlaceholder (i + 1))
    ∧ parseTranslationResponse "1. Foo" 3
        = ["Foo", missingPlaceholder 2, missingPlaceholder 3]
    ∧ missingPlaceholder 2 ≠ missingPlaceholder 3
    ∧ parseTranslationResponse "1. Foo\n2. \"Bar\"\n3. Baz" 3 = ["Foo", "Bar", "Baz"] := by
  refine ⟨?_, ?_, by decide, by decide, by decide⟩
  · intro aiResponse expectedCount
    simp [parseTranslationResponse]
  · intro aiResponse expectedCount i hlines hi
    have h1 : (nonBlankLines aiResponse).getD i "" = "" := by
      rw [List.getD, List.get?_eq_none.mpr hlines]
      rfl
    unfold parseTranslationResponse
    rw [List.getD, List.get?_map, List.get?_range hi]
    simp only [Option.map_some', Option.getD_some, h1]
    have hm : matchNumbered "" = none := rfl
    have ht : jsTrim "" = "" := rfl
    simp only [hm, ht, if_pos rfl]
    exact stripQuotes_missingPlaceholder (i + 1)

/-- Values for the padding clause of the parser claim at a concrete
input, obtained from the claim theorem itself. -/
theorem parser_returns_exactly_expected_count_witness :
    ((nonBlankLines "1. Foo").length ≤ 1 ∧ 1 < 3
      ∧ (parseTranslationResponse "1. Foo" 3).getD 1 "" = missingPlaceholder 2)
    ∧ (parseTranslationResponse "only line" 4).length = 4 :=
  ⟨⟨by decide, by decide,
    parser_returns_exactly_expected_count.2.1 "1. Foo" 3 1 (by decide) (by decide)⟩,
   parser_returns_exactly_expected_count.1 "only line" 4⟩

/-- C3: a record whose translation for the language is non-blank is
untouched by `translateLanguage` — whole-record identity — and stays
untouched across a second run with any completion-client behaviour. -/
theorem translateLanguage_idempotent_on_nonblank
    (client client2 : Nat → String → Nat → Option String)
    (amenities : List Amenity) (lang langName : String) (i : Nat)
    (hnb : nonBlankTranslation (amenities.getD i default) lang = true) :
    ((Translator.translateLanguage client amenities lang langName).2).getD i default
        = amenities.getD i default
    ∧ ((Translator.translateLanguage client2
          ((Translator.translateLanguage client amenities lang langName).2)
          lang langName).2).getD i default
        = amenities.getD i default := by
  have key : ∀ (c : Nat → String → Nat → Option String) (as : List Amenity),
      Translator.isMissing (as.getD i default) lang = false →
      ((Translator.translateLanguage c as lang langName).2).getD i default
        = as.getD i default := by
    intro c as hmiss
    unfold Translator.translateLanguage
    by_cases he : (Translator.findMissingTranslations as lang).isEmpty
    · simp [he]
    · simp only [he, Bool.false_eq_true, if_false]
      exact writeBack_preserve lang as _ i hmiss
  have hm : Translator.isMissing (amenities.getD i default) lang = false := by
    rw [isMissing_eq_not_nonBlank, hnb]
    rfl
  have h1 := key client amenities hm
  refine ⟨h1, ?_⟩
  have hm2 : Translator.isMissing
      (((Translator.translateLanguage client amenities lang langName).2).getD i default) lang
      = false := by
    rw [h1]
    exact hm
  have h2 := key client2 _ hm2
  rw [h2, h1]

/-- The single-record data of the idempotence scenario. -/
def c3Amenities : List Amenity :=
  [⟨some "1", some "Free WiFi", none, some [("es", "Hola")], []⟩]

/-- A completion client always returning a fresh translation text. -/
def c3Client : Nat → String → Nat → Option String := fun _ _ _ => some "1. Algo"

theorem translateLanguage_idempotent_on_nonblank_witness :
    nonBlankTranslation (c3Amenities.getD 0 default) "es" = true
    ∧ ((Translator.translateLanguage c3Client c3Amenities "es" "Spanish").2).getD 0 default
        = c3Amenities.getD 0 default :=
  ⟨by decide,
   (translateLanguage_idempotent_on_nonblank c3Client c3Client c3Amenities "es" "Spanish" 0
      (by decide)).1⟩

/-- C8: `determineQualityLevel` realises exactly the fixed threshold
bands of the claim, with the boundary values landing as stated
(`9.0` EXCELLENT, `7.5` GOOD, `6.0` ACCEPTABLE, `5.99` NEEDS_IMPROVEMENT;
`mkRat 15 2` and `mkRat 599 100` are these literals, as the last two
conjuncts record). -/
theorem determineQualityLevel_bands :
    (∀ s : ℚ,
      (Validator.determineQualityLevel s = "EXCELLENT" ↔ 9 ≤ s)
      ∧ (Validator.determineQualityLevel s = "GOOD" ↔ 7.5 ≤ s ∧ s < 9)
      ∧ (Validator.determineQualityLevel s = "ACCEPTABLE" ↔ 6 ≤ s ∧ s < 7.5)
      ∧ (Validator.determineQualityLevel s = "NEEDS_IMPROVEMENT" ↔ s < 6))
    ∧ Validator.determineQualityLevel 9 = "EXCELLENT"
    ∧ Validator.determineQualityLevel (mkRat 15 2) = "GOOD"
    ∧ Validator.determineQualityLevel 6 = "ACCEPTABLE"
    ∧ Validator.determineQualityLevel (mkRat 599 100) = "NEEDS_IMPROVEMENT"
    ∧ mkRat 15 2 = (7.5 : ℚ)
    ∧ mkRat 599 100 = (5.99 : ℚ) := by
  refine ⟨?_, by decide, by decide, by decide, by decide, mkRat_15_2_eq, mkRat_599_100_eq⟩
  intro s
  unfold Validator.determineQualityLevel Validator.EXCELLENT_THRESHOLD
    Validator.ACCEPTABLE_THRESHOLD
  rw [GOOD_THRESHOLD_eq]
  split_ifs with h1 h2 h3 <;>
    refine ⟨?_, ?_, ?_, ?_⟩ <;>
      constructor <;>
        intro hx <;>
          first
            | rfl
            | linarith
            | exact absurd hx (by decide)
            | (constructor <;> linarith)

/-- C9: `extractScoreFromAssessment` is the fixed keyword ladder over
the lowercased assessment, checked in the stated priority order
(`mkRat 19 2 = 9.5` and `mkRat 13 2 = 6.5`, as the last conjuncts
record). -/
theorem extractScore_keyword_ladder (a : String) :
    ((Validator.strIncludes (jsToLower a) "excellent"
        || Validator.strIncludes (jsToLower a) "perfect") = true →
      Validator.extractScoreFromAssessment a = mkRat 19 2)
    ∧ ((Validator.strIncludes (jsToLower a) "excellent"
        || Validator.strIncludes (jsToLower a) "perfect") = false →
      (Validator.strIncludes (jsToLower a) "very good"
        || Validator.strIncludes (jsToLower a) "good") = true →
      Validator.extractScoreFromAssessment a = 8)
    ∧ ((Validator.strIncludes (jsToLower a) "excellent"
        || Validator.strIncludes (jsToLower a) "perfect") = false →
      (Validator.strIncludes (jsToLower a) "very good"
        || Validator.strIncludes (jsToLower a) "good") = false →
      (Validator.strIncludes (jsToLower a) "acceptable"
        || Validator.strIncludes (jsToLower a) "adequate") = true →
      Validator.extractScoreFromAssessment a = mkRat 13 2)
    ∧ ((Validator.strIncludes (jsToLower a) "excellent"
        || Validator.strIncludes (jsToLower a) "perfect") = false →
      (Validator.strIncludes (jsToLower a) "very good"
        || Validator.strIncludes (jsToLower a) "good") = false →
      (Validator.strIncludes (jsToLower a) "acceptable"
        || Validator.strIncludes (jsToLower a) "adequate") = false →
      (Validator.strIncludes (jsToLower a) "poor"
        || Validator.strIncludes (jsToLower a) "bad") = true →
      Validator.extractScoreFromAssessment a = 3)
    ∧ ((Validator.strIncludes (jsToLower a) "excellent"
        || Validator.strIncludes (jsToLower a) "perfect") = false →
      (Validator.strIncludes (jsToLower a) "very good"
        || Validator.strIncludes (jsToLower a) "good") = false →
      (Validator.strIncludes (jsToLower a) "acceptable"
        || Validator.strIncludes (jsToLower a) "adequate") = false →
      (Validator.strIncludes (jsToLower a) "poor"
        || Validator.strIncludes (jsToLower a) "bad") = false →
      (Validator.strIncludes (jsToLower a) "failed"
        || Validator.strIncludes (jsToLower a) "error") = true →
      Validator.extractScoreFromAssessment a = 0)
    ∧ ((Validator.strIncludes (jsToLower a) "excellent"
        || Validator.strIncludes (jsToLower a) "perfect") = false →
      (Validator.strIncludes (jsToLower a) "very good"
        || Validator.strIncludes (jsToLower a) "good") = false →
      (Validator.strIncludes (jsToLower a) "acceptable"
        || Validator.strIncludes (jsToLower a) "adequate") = false →
      (Validator.strIncludes (jsToLower a) "poor"
        || Validator.strIncludes (jsToLower a) "bad") = false →
      (Validator.strIncludes (jsToLower a) "failed"
        || Validator.strIncludes (jsToLower a) "error") = false →
      Validator.extractScoreFromAssessment a = 5)
    ∧ mkRat 19 2 = (9.5 : ℚ)
    ∧ mkRat 13 2 = (6.5 : ℚ) := by
  unfold Validator.extractScoreFromAssessment
  refine ⟨?_, ?_, ?_, ?_, ?_, ?_, mkRat_19_2_eq, mkRat_13_2_eq⟩ <;>
    intros <;> simp_all

theorem extractScore_keyword_ladder_witness :
    ((Validator.strIncludes (jsToLower "Perfect match") "excellent"
        || Validator.strIncludes (jsToLower "Perfect match") "perfect") = true
      ∧ Validator.extractScoreFromAssessment "Perfect match" = mkRat 19 2)
    ∧ Validator.extractScoreFromAssessment "mediocre" = 5 :=
  ⟨⟨by decide, (extractScore_keyword_ladder "Perfect match").1 (by decide)⟩,
   (extractScore_keyword_ladder "mediocre").2.2.2.2.2.1
     (by decide) (by decide) (by decide) (by decide) (by decide)⟩

/-- C10: `validateSingleTranslation` throws exactly when the language
code is not a key of `LANGUAGE_NAMES` — the prompt builder dereferences
the missing language name before the try/catch — and for a known
language code it never throws, returning a fully populated result
object for every completion-client behaviour. -/
theorem validateSingleTranslation_unknown_language_throws
    (client : String → Except String String) (en tt lang : String) :
    (Validator.LANGUAGE_NAMES.lookup lang = none →
      ∃ e, Validator.validateSingleTranslation client en tt lang = .error e)
    ∧ (∀ nm, Validator.LANGUAGE_NAMES.lookup lang = some nm →
      ∃ v, Validator.validateSingleTranslation client en tt lang = .ok v) := by
  constructor
  · intro h
    have hp : Validator.createEnhancedValidationPrompt en tt lang
        = .error "TypeError: cannot read toUpperCase of undefined" := by
      unfold Validator.createEnhancedValidationPrompt
      rw [h]
    refine ⟨"TypeError: cannot read toUpperCase of undefined", ?_⟩
    unfold Validator.validateSingleTranslation
    rw [hp]
  · intro nm h
    have hp : ∃ p, Validator.createEnhancedValidationPrompt en tt lang = .ok p := by
      unfold Validator.createEnhancedValidationPrompt
      rw [h]
      exact ⟨_, rfl⟩
    obtain ⟨p, hp⟩ := hp
    unfold Validator.validateSingleTranslation
    rw [hp]
    dsimp only
    cases client p with
    | ok r => exact ⟨_, rfl⟩
    | error m => exact ⟨_, rfl⟩

/-- A completion client whose calls always fail. -/
def c10Client : String → Except String String := fun _ => .error "network error"

theorem validateSingleTranslation_unknown_language_throws_witness :
    (Validator.LANGUAGE_NAMES.lookup "xx" = none
      ∧ ∃ e, Validator.validateSingleTranslation c10Client "Free WiFi" "Hola" "xx" = .error e)
    ∧ (Validator.LANGUAGE_NAMES.lookup "es" = some "Spanish"
      ∧ ∃ v, Validator.validateSingleTranslation c10Client "Free WiFi" "Hola" "es" = .ok v) :=
  ⟨⟨by decide,
    (validateSingleTranslation_unknown_language_throws c10Client "Free WiFi" "Hola" "xx").1
      (by decide)⟩,
   ⟨by decide,
    (validateSingleTranslation_unknown_language_throws c10Client "Free WiFi" "Hola" "es").2
      "Spanish" (by decide)⟩⟩

/-- A single record whose stored translation is the failure sentinel
produced by retry exhaustion. -/
def c5Amenities : List Amenity :=
  [⟨some "1", some "Free WiFi", none, some [("es", "[TRANSLATION_ERROR]")], []⟩]

/-- A validation client whose calls always fail. -/
def c5Client : Nat → String → Except String String := fun _ _ => .error "API down"

/-- C5: the claim fails on the code.  The validator's filter keeps any
non-blank translation with no sentinel check, and the caller's filter
only excludes the never-produced `'[TRANSLATION_FAILED]'` spelling, so
a record holding the actually produced sentinel `'[TRANSLATION_ERROR]'`
passes both filters and is sampled and scored by `validateLanguage`. -/
theorem sentinel_translation_is_sampled :
    Validator.hasTranslationVal (c5Amenities.getD 0 default) "es" = true
    ∧ Translator.hasTranslationVR (c5Amenities.getD 0 default) "es" = true
    ∧ ∃ r, Validator.validateLanguage c5Client id c5Amenities "es" "Spanish" 5 = .ok r
        ∧ r.validationResults.map (fun v => v.translatedText) = ["[TRANSLATION_ERROR]"]
        ∧ r.sampleSize = 1 :=
  ⟨by decide, by decide, _, rfl, by decide, by decide⟩

/-- C7: whenever `validateLanguage` returns a report with a non-empty
sample, its `averageScore` is the arithmetic mean of the sampled
records' scores, the sample holds `min sampleSize population` records,
and `totalTranslations` is the filtered population size — so the mean
ranges over the sample only, never the full population. -/
theorem averageScore_is_sample_mean
    (client : Nat → String → Except String String)
    (shuffle : List Amenity → List Amenity)
    (amenities : List Amenity) (lang langName : String) (sampleSize : Nat)
    (r : Validator.LanguageResult)
    (hshuffle : ∀ l, (shuffle l).length = l.length)
    (hok : Validator.validateLanguage client shuffle amenities lang langName sampleSize = .ok r)
    (hne : r.sampleSize ≠ 0) :
    r.averageScore
        = ((r.validationResults.map (fun v => v.score)).sum) / (r.sampleSize : ℚ)
    ∧ r.sampleSize = min sampleSize r.totalTranslations
    ∧ r.totalTranslations
        = (amenities.filter (fun a => Validator.hasTranslationVal a lang)).length := by
  unfold Validator.validateLanguage at hok
  by_cases he : (amenities.filter (fun a => Validator.hasTranslationVal a lang)).isEmpty
  · rw [if_pos he] at hok
    simp only [Except.ok.injEq] at hok
    rw [← hok] at hne
    exact absurd rfl hne
  · rw [if_neg he] at hok
    dsimp only at hok
    set T := amenities.filter (fun a => Validator.hasTranslationVal a lang) with hT
    set S := List.take (min sampleSize T.length) (shuffle T) with hS
    rcases hsl : Validator.sampleLoop client lang 0 S with e | outcomes
    · rw [hsl] at hok
      simp at hok
    · rw [hsl] at hok
      simp only [Except.ok.injEq] at hok
      have hlen : outcomes.length = S.length :=
        sampleLoop_length client lang 0 S outcomes hsl
      have hv : List.map (fun v => v.score)
            (List.map (fun p => Validator.ValidationRecord.mk p.1.id (nameOrEn p.1)
                (currentTranslationStr p.1 lang) p.2.score p.2.accuracy p.2.cultural
                p.2.natural p.2.technical p.2.issues p.2.recommendation)
              (S.zip outcomes))
          = List.map (fun v => v.score) outcomes := by
        rw [List.map_map]
        exact zipMapSnd (fun v => v.score) S outcomes hlen.symm
      refine ⟨?_, ?_, ?_⟩
      · rw [← hok]
        dsimp only
        rw [hv, qdivNat_eq, qsum_eq]
      · rw [← hok]
        dsimp only
        rw [hS, List.length_take, hshuffle]
        exact Nat.min_eq_left (Nat.min_le_right _ _)
      · rw [← hok]

/-- Unwrap a successful validator run. -/
def getOkResult (e : Except String Validator.LanguageResult) : Validator.LanguageResult :=
  match e with
  | .ok r => r
  | .error _ => default

/-- Five translated records for the aggregation scenario. -/
def c7Amenities : List Amenity :=
  [⟨some "1", some "Free WiFi", none, some [("es", "WiFi gratuito")], []⟩,
   ⟨some "2", some "Parking", none, some [("es", "Aparcamiento")], []⟩,
   ⟨some "3", some "Pool", none, some [("es", "Piscina")], []⟩,
   ⟨some "4", some "Gym", none, some [("es", "Gimnasio")], []⟩,
   ⟨some "5", some "Spa", none, some [("es", "Spa")], []⟩]

/-- A validation client that scores the five samples 9, 8, 10, 7, 9. -/
def c7Client : Nat → String → Except String String :=
  fun i _ => .ok ("Score: " ++ toString ([9, 8, 10, 7, 9].getD i 0))

/-- The report of the aggregation scenario. -/
def c7Report : Validator.LanguageResult :=
  getOkResult (Validator.validateLanguage c7Client id c7Amenities "es" "Spanish" 5)

theorem averageScore_is_sample_mean_witness :
    ((∀ l : List Amenity, (id l).length = l.length)
      ∧ Validator.validateLanguage c7Client id c7Amenities "es" "Spanish" 5 = .ok c7Report
      ∧ c7Report.sampleSize ≠ 0)
    ∧ c7Report.averageScore
        = ((c7Report.validationResults.map (fun v => v.score)).sum) / (c7Report.sampleSize : ℚ)
    ∧ c7Report.validationResults.map (fun v => v.score)
        = [mkRat 9 1, mkRat 8 1, mkRat 10 1, mkRat 7 1, mkRat 9 1]
    ∧ c7Report.sampleSize = 5
    ∧ c7Report.averageScore = mkRat 43 5
    ∧ mkRat 43 5 = (8.6 : ℚ) :=
  ⟨⟨fun _ => rfl, rfl, by decide⟩,
   (averageScore_is_sample_mean c7Client id c7Amenities "es" "Spanish" 5 c7Report
      (fun _ => rfl) rfl (by decide)).1,
   by decide, by decide, by decide, mkRat_43_5_eq⟩

/-- The single translated record of the retranslation scenarios. -/
def c2Amenities : List Amenity :=
  [⟨some "1", some "Free WiFi", none, some [("es", "Hola")], []⟩]

/-- A validator report with a given average score (the other fields are
irrelevant to the controller's branching). -/
def reportWithScore (q : ℚ) : Validator.LanguageResult :=
  { languageCode := "es", languageName := "Spanish", sampleSize := 1,
    totalTranslations := 1, averageScore := q, qualityLevel := "GOOD",
    validationResults := [],
    qualityBreakdown := { accuracy := q, cultural := q, natural := q, technical := q } }

/-- A retranslation client that answers with one improved translation. -/
def c2Client : String → Nat → Option String := fun _ _ => some "1. Nuevo"

/-- C2: when the re-validation score is still below the threshold, the
controller reports `retranslation_failed_kept_original` while the
record set it returns is exactly the post-overwrite state — every
translated record still holds the text `retranslateBatch` produced,
with no rollback. -/
theorem retranslation_failed_keeps_overwritten_text
    (vres1 vres2 : Validator.LanguageResult) (rclient : String → Nat → Option String)
    (amenities : List Amenity) (lang langName : String)
    (hne : amenities.filter (fun a => Translator.hasTranslationVR a lang) ≠ [])
    (h1 : vres1.averageScore < Translator.QUALITY_THRESHOLD)
    (h2 : vres2.averageScore < Translator.QUALITY_THRESHOLD) :
    (Translator.validateAndRetranslateLanguage vres1 rclient vres2 amenities lang langName).1.status
        = "retranslation_failed_kept_original"
    ∧ (Translator.validateAndRetranslateLanguage vres1 rclient vres2 amenities lang langName).2
        = Translator.overwriteTranslated lang
            (Translator.retranslateBatch rclient
              ((amenities.filter (fun a => Translator.hasTranslationVR a lang)).map nameOrEn)
              ((amenities.filter (fun a => Translator.hasTranslationVR a lang)).map
                (fun a => currentTranslationStr a lang))
              (Translator.qualityIssuesOf vres1) lang langName)
            amenities 0
    ∧ ((amenities.zip
          (Translator.validateAndRetranslateLanguage vres1 rclient vres2 amenities
            lang langName).2).filterMap
        (fun p => if Translator.hasTranslationVR p.1 lang then some p.2 else none)).map
        (fun a => nameAllLookup a lang)
      = (Translator.retranslateBatch rclient
          ((amenities.filter (fun a => Translator.hasTranslationVR a lang)).map nameOrEn)
          ((amenities.filter (fun a => Translator.hasTranslationVR a lang)).map
            (fun a => currentTranslationStr a lang))
          (Translator.qualityIssuesOf vres1) lang langName).map some := by
  have hempty : (amenities.filter (fun a => Translator.hasTranslationVR a lang)).isEmpty = false := by
    cases hc : amenities.filter (fun a => Translator.hasTranslationVR a lang) with
    | nil => exact absurd hc hne
    | cons a rest => rfl
  have himp : (Translator.retranslateBatch rclient
        ((amenities.filter (fun a => Translator.hasTranslationVR a lang)).map nameOrEn)
        ((amenities.filter (fun a => Translator.hasTranslationVR a lang)).map
          (fun a => currentTranslationStr a lang))
        (Translator.qualityIssuesOf vres1) lang langName).length
      = (amenities.filter (fun a => Translator.hasTranslationVR a lang)).length := by
    rw [retranslateBatch_length]
    · rw [List.length_map]
    · rw [List.length_map, List.length_map]
  have hrun : Translator.validateAndRetranslateLanguage vres1 rclient vres2 amenities lang langName
      = (⟨lang, langName, vres2.averageScore, false, "retranslation_failed_kept_original",
          some vres1.averageScore, some vres2.averageScore, vres1.validationResults⟩,
         Translator.overwriteTranslated lang
           (Translator.retranslateBatch rclient
             ((amenities.filter (fun a => Translator.hasTranslationVR a lang)).map nameOrEn)
             ((amenities.filter (fun a => Translator.hasTranslationVR a lang)).map
               (fun a => currentTranslationStr a lang))
             (Translator.qualityIssuesOf vres1) lang langName)
           amenities 0) := by
    unfold Translator.validateAndRetranslateLanguage
    dsimp only
    rw [hempty]
    simp only [Bool.false_eq_true, if_false]
    rw [if_pos h1, if_neg (not_le.mpr h2)]
  refine ⟨by rw [hrun], by rw [hrun], ?_⟩
  rw [hrun]
  have hread := overwriteTranslated_read lang
    (Translator.retranslateBatch rclient
      ((amenities.filter (fun a => Translator.hasTranslationVR a lang)).map nameOrEn)
      ((amenities.filter (fun a => Translator.hasTranslationVR a lang)).map
        (fun a => currentTranslationStr a lang))
      (Translator.qualityIssuesOf vres1) lang langName)
    amenities 0 (by rw [himp]; omega)
  rw [hread, List.drop_zero, ← himp, List.take_length]

theorem retranslation_failed_keeps_overwritten_text_witness :
    (c2Amenities.filter (fun a => Translator.hasTranslationVR a "es") ≠ []
      ∧ (reportWithScore (mkRat 5 1)).averageScore < Translator.QUALITY_THRESHOLD)
    ∧ (Translator.validateAndRetranslateLanguage (reportWithScore (mkRat 5 1)) c2Client
        (reportWithScore (mkRat 5 1)) c2Amenities "es" "Spanish").1.status
        = "retranslation_failed_kept_original"
    ∧ ((Translator.validateAndRetranslateLanguage (reportWithScore (mkRat 5 1)) c2Client
        (reportWithScore (mkRat 5 1)) c2Amenities "es" "Spanish").2.map
          (fun a => nameAllLookup a "es")) = [some "Nuevo"] :=
  ⟨⟨by decide, by decide⟩,
   (retranslation_failed_keeps_overwritten_text (reportWithScore (mkRat 5 1))
      (reportWithScore (mkRat 5 1)) c2Client c2Amenities "es" "Spanish"
      (by decide) (by decide) (by decide)).1,
   by decide⟩

/-- The single translated record of the threshold-boundary scenario. -/
def c4Amenities : List Amenity :=
  [⟨some "1", some "Free WiFi", none, some [("es", "WiFi gratuito")], []⟩]

/-- A retranslation client that answers with one improved translation. -/
def c4Client : String → Nat → Option String := fun _ _ => some "1. Mejor"

/-- C4: with a non-empty translated set, the retranslation path is
taken exactly when the first validation pass's `averageScore` is
strictly below `QUALITY_THRESHOLD`: at or above the threshold the
controller reports `quality_acceptable` and leaves the record set
untouched, and below it the record set is overwritten with the
retranslation output and the status is one of the two retranslation
outcomes. -/
theorem retranslation_triggered_iff_below_threshold
    (vres1 vres2 : Validator.LanguageResult) (rclient : String → Nat → Option String)
    (amenities : List Amenity) (lang langName : String)
    (hne : amenities.filter (fun a => Translator.hasTranslationVR a lang) ≠ []) :
    (Translator.QUALITY_THRESHOLD ≤ vres1.averageScore →
      (Translator.validateAndRetranslateLanguage vres1 rclient vres2 amenities
          lang langName).1.status = "quality_acceptable"
      ∧ (Translator.validateAndRetranslateLanguage vres1 rclient vres2 amenities
          lang langName).1.averageScore = vres1.averageScore
      ∧ (Translator.validateAndRetranslateLanguage vres1 rclient vres2 amenities
          lang langName).2 = amenities)
    ∧ (vres1.averageScore < Translator.QUALITY_THRESHOLD →
      ((Translator.validateAndRetranslateLanguage vres1 rclient vres2 amenities
          lang langName).1.status = "retranslated_success"
        ∨ (Translator.validateAndRetranslateLanguage vres1 rclient vres2 amenities
            lang langName).1.status = "retranslation_failed_kept_original")
      ∧ (Translator.validateAndRetranslateLanguage vres1 rclient vres2 amenities
          lang langName).2
        = Translator.overwriteTranslated lang
            (Translator.retranslateBatch rclient
              ((amenities.filter (fun a => Translator.hasTranslationVR a lang)).map nameOrEn)
              ((amenities.filter (fun a => Translator.hasTranslationVR a lang)).map
                (fun a => currentTranslationStr a lang))
              (Translator.qualityIssuesOf vres1) lang langName)
            amenities 0) := by
  have hempty : (amenities.filter (fun a => Translator.hasTranslationVR a lang)).isEmpty
      = false := by
    cases hc : amenities.filter (fun a => Translator.hasTranslationVR a lang) with
    | nil => exact absurd hc hne
    | cons a rest => rfl
  constructor
  · intro hge
    have hrun : Translator.validateAndRetranslateLanguage vres1 rclient vres2 amenities
        lang langName
        = (⟨lang, langName, vres1.averageScore, false, "quality_acceptable",
            none, none, vres1.validationResults⟩, amenities) := by
      unfold Translator.validateAndRetranslateLanguage
      dsimp only
      rw [hempty]
      simp only [Bool.false_eq_true, if_false]
      rw [if_neg (not_lt.mpr hge)]
    exact ⟨by rw [hrun], by rw [hrun], by rw [hrun]⟩
  · intro hlt
    by_cases hfin : Translator.QUALITY_THRESHOLD ≤ vres2.averageScore
    · have hrun : Translator.validateAndRetranslateLanguage vres1 rclient vres2 amenities
          lang langName
          = (⟨lang, langName, vres2.averageScore, false, "retranslated_success",
              some vres1.averageScore, some vres2.averageScore, vres1.validationResults⟩,
             Translator.overwriteTranslated lang
               (Translator.retranslateBatch rclient
                 ((amenities.filter (fun a => Translator.hasTranslationVR a lang)).map nameOrEn)
                 ((amenities.filter (fun a => Translator.hasTranslationVR a lang)).map
                   (fun a => currentTranslationStr a lang))
                 (Translator.qualityIssuesOf vres1) lang langName)
               amenities 0) := by
        unfold Translator.validateAndRetranslateLanguage
        dsimp only
        rw [hempty]
        simp only [Bool.false_eq_true, if_false]
        rw [if_pos hlt, if_pos hfin]
      exact ⟨Or.inl (by rw [hrun]), by rw [hrun]⟩
    · have hrun : Translator.validateAndRetranslateLanguage vres1 rclient vres2 amenities
          lang langName
          = (⟨lang, langName, vres2.averageScore, false, "retranslation_failed_kept_original",
              some vres1.averageScore, some vres2.averageScore, vres1.validationResults⟩,
             Translator.overwriteTranslated lang
               (Translator.retranslateBatch rclient
                 ((amenities.filter (fun a => Translator.hasTranslationVR a lang)).map nameOrEn)
                 ((amenities.filter (fun a => Translator.hasTranslationVR a lang)).map
                   (fun a => currentTranslationStr a lang))
                 (Translator.qualityIssuesOf vres1) lang langName)
               amenities 0) := by
        unfold Translator.validateAndRetranslateLanguage
        dsimp only
        rw [hempty]
        simp only [Bool.false_eq_true, if_false]
        rw [if_pos hlt, if_neg hfin]
      exact ⟨Or.inr (by rw [hrun]), by rw [hrun]⟩

theorem retranslation_triggered_iff_below_threshold_witness :
    (c4Amenities.filter (fun a => Translator.hasTranslationVR a "es") ≠ []
      ∧ Translator.QUALITY_THRESHOLD ≤ (reportWithScore (mkRat 17 2)).averageScore
      ∧ (reportWithScore (mkRat 849 100)).averageScore < Translator.QUALITY_THRESHOLD)
    ∧ (Translator.validateAndRetranslateLanguage (reportWithScore (mkRat 17 2)) c4Client
        (reportWithScore (mkRat 9 1)) c4Amenities "es" "Spanish").1.status
        = "quality_acceptable"
    ∧ (Translator.validateAndRetranslateLanguage (reportWithScore (mkRat 17 2)) c4Client
        (reportWithScore (mkRat 9 1)) c4Amenities "es" "Spanish").2 = c4Amenities
    ∧ ((Translator.validateAndRetranslateLanguage (reportWithScore (mkRat 849 100)) c4Client
        (reportWithScore (mkRat 9 1)) c4Amenities "es" "Spanish").1.status
          = "retranslated_success"
      ∨ (Translator.validateAndRetranslateLanguage (reportWithScore (mkRat 849 100)) c4Client
          (reportWithScore (mkRat 9 1)) c4Amenities "es" "Spanish").1.status
          = "retranslation_failed_kept_original")
    ∧ mkRat 17 2 = (8.5 : ℚ)
    ∧ mkRat 849 100 = (8.49 : ℚ) :=
  ⟨⟨by decide, by decide, by decide⟩,
   ((retranslation_triggered_iff_below_threshold (reportWithScore (mkRat 17 2))
      (reportWithScore (mkRat 9 1)) c4Client c4Amenities "es" "Spanish" (by decide)).1
      (by decide)).1,
   ((retranslation_triggered_iff_below_threshold (reportWithScore (mkRat 17 2))
      (reportWithScore (mkRat 9 1)) c4Client c4Amenities "es" "Spanish" (by decide)).1
      (by decide)).2.2,
   ((retranslation_triggered_iff_below_threshold (reportWithScore (mkRat 849 100))
      (reportWithScore (mkRat 9 1)) c4Client c4Amenities "es" "Spanish" (by decide)).2
      (by decide)).1,
   QUALITY_THRESHOLD_eq,
   mkRat_849_100_eq⟩

end Translations
